import Mathlib

/-!
Shallow embedding of the scheduling/availability engine and the waitlist
reconciler of the barbershop booking backend.

Source files embedded:
* src/utils/scheduleUtils.js — generateTimeSlots, isTimeSlotAvailable,
  getAvailableTimeSlots (pure functions over "HH:MM" strings and minute
  arithmetic).
* src/unnamed/part_002, updateWaitlistForDate — the waitlist reconciliation
  pass, modelled as a pure function over an explicit database state plus an
  emitted trace of write/notification events.
* src/unnamed/part_003, sendWaitlistNotificationSMS — the Twilio wrapper,
  modelled with an explicit outcome for the external client call.

Conventions: calendar dates are modelled at day granularity as Nat (the
source's startOfDay/endOfDay range query selects exactly the records of one
day); JavaScript numbers holding minute counts and durations are Nat;
Date.now() is an explicit `now : Nat` parameter; Mongoose documents are
structures carrying the populated fields the reconciler reads.
-/

/-- Business hours start hour (scheduleUtils.js: BUSINESS_HOURS.start = 9). -/
def BUSINESS_HOURS_start : Nat := 9

/-- Business hours end hour (scheduleUtils.js: BUSINESS_HOURS.end = 18). -/
def BUSINESS_HOURS_end : Nat := 18

/-- Slot interval in minutes (scheduleUtils.js: TIME_SLOT_INTERVAL = 30). -/
def TIME_SLOT_INTERVAL : Nat := 30

/-- JavaScript String.prototype.padStart(2, '0'). -/
def padStart2 (s : String) : String :=
  if s.length ≥ 2 then s else String.mk (List.replicate (2 - s.length) '0') ++ s

/-- One iteration of the slot-building loop in generateTimeSlots:
hour = Math.floor(minutes / 60) + start, minute = minutes % 60, formatted
as zero-padded "HH:MM". -/
def slotOfIndex (i : Nat) : String :=
  let minutes := i * TIME_SLOT_INTERVAL
  let hour := minutes / 60 + BUSINESS_HOURS_start
  let minute := minutes % 60
  padStart2 (toString hour) ++ ":" ++ padStart2 (toString minute)

/-- scheduleUtils.js generateTimeSlots: pushes slotOfIndex i for
i = 0 .. totalSlots - 1 where totalSlots = (end - start) * 60 / interval. -/
def generateTimeSlots : List String :=
  let totalSlots := ((BUSINESS_HOURS_end - BUSINESS_HOURS_start) * 60) / TIME_SLOT_INTERVAL
  (List.range totalSlots).map slotOfIndex

/-- A booking as consumed by the availability checker: the object
{ timeSlot, serviceDuration } built by the callers of isTimeSlotAvailable. -/
structure Booking where
  timeSlot : String
  serviceDuration : Nat
  deriving DecidableEq

/-- Numeric value of a decimal digit character, none for a non-digit. -/
def charDigit (c : Char) : Option Nat :=
  if '0' ≤ c ∧ c ≤ '9' then some (c.toNat - '0'.toNat) else none

/-- Decimal reading of a character list: JavaScript Number(...) on the pieces
of a split time string, where Number("") = 0 is recovered below via getD 0
and a non-numeric piece (NaN in JS) is mapped to 0 as well — the program only
ever produces all-digit pieces. -/
def listToNat? (l : List Char) : Option Nat :=
  if l.isEmpty then none
  else l.foldl (fun acc c =>
    match acc, charDigit c with
    | some n, some d => some (n * 10 + d)
    | _, _ => none) (some 0)

/-- JavaScript String.prototype.split(':') on the underlying characters:
"".split(':') = [""], "09:30".split(':') = ["09", "30"]. -/
def splitCols : List Char → List (List Char)
  | [] => [[]]
  | c :: cs =>
    if c = ':' then [] :: splitCols cs
    else
      match splitCols cs with
      | t :: ts => (c :: t) :: ts
      | [] => [[c]]

/-- JavaScript timeSlot.split(':').map(Number) destructured into
[hours, minutes]: the first two numeric pieces of the time string. -/
def parseSlot (s : String) : Nat × Nat :=
  match (splitCols s.toList).map (fun t => (listToNat? t).getD 0) with
  | h :: m :: _ => (h, m)
  | [h] => (h, 0)
  | [] => (0, 0)

/-- Minutes since midnight of a parsed "HH:MM" slot string, the quantity
hours * 60 + minutes computed at the top of isTimeSlotAvailable. -/
def slotMinutes (s : String) : Nat := (parseSlot s).1 * 60 + (parseSlot s).2

/-- scheduleUtils.js isTimeSlotAvailable: reject if the slot's hour is before
opening or its end minute runs past closing, then reject on the three-way
interval-overlap test against each existing appointment; the early-return
loop over appointments is List.all of the negated overlap condition. -/
def isTimeSlotAvailable (timeSlot : String) (existingAppointments : List Booking)
    (serviceDuration : Nat) : Bool :=
  let hm := parseSlot timeSlot
  let slotStartMinutes := hm.1 * 60 + hm.2
  let slotEndMinutes := slotStartMinutes + serviceDuration
  if hm.1 < BUSINESS_HOURS_start || slotEndMinutes > BUSINESS_HOURS_end * 60 then
    false
  else
    existingAppointments.all (fun appointment =>
      let ahm := parseSlot appointment.timeSlot
      let appStartMinutes := ahm.1 * 60 + ahm.2
      let appEndMinutes := appStartMinutes + appointment.serviceDuration
      !((slotStartMinutes ≥ appStartMinutes && slotStartMinutes < appEndMinutes) ||
        (slotEndMinutes > appStartMinutes && slotEndMinutes ≤ appEndMinutes) ||
        (slotStartMinutes ≤ appStartMinutes && slotEndMinutes ≥ appEndMinutes)))

/-- scheduleUtils.js getAvailableTimeSlots: the push-inside-a-loop builds
exactly the filter of the full grid by the checker. The date argument is
accepted but never read by the body, as in the source. -/
def getAvailableTimeSlots (date : Nat) (existingAppointments : List Booking)
    (serviceDuration : Nat) : List String :=
  generateTimeSlots.filter
    (fun slot => isTimeSlotAvailable slot existingAppointments serviceDuration)

/-- Waitlist entry status enum (models/Waitlist.js: status enum
['waiting', 'notified', 'booked', 'expired'], default 'waiting'). -/
inductive WaitlistStatus
  | waiting
  | notified
  | booked
  | expired
  deriving DecidableEq

/-- Appointment status enum (part_003 AppointmentSchema: status enum
['pending', 'confirmed', 'cancelled', 'completed', 'no-show']). -/
inductive AppointmentStatus
  | pending
  | confirmed
  | cancelled
  | completed
  | noShow
  deriving DecidableEq

/-- An appointment document as the reconciler reads it: date at day
granularity, its "HH:MM" time slot, the populated serviceId.duration, and
its status. -/
structure Appointment where
  date : Nat
  timeSlot : String
  serviceDuration : Nat
  status : AppointmentStatus
  deriving DecidableEq

/-- A waitlist document with the fields updateWaitlistForDate reads or
writes, the referenced user and service populated inline: id is the Mongo
document id, serviceDuration is serviceId.duration, phone and the two
notification preferences come from the populated userId. -/
structure WaitlistEntry where
  id : Nat
  date : Nat
  createdAt : Nat
  status : WaitlistStatus
  preferredTimeSlots : List String
  serviceDuration : Nat
  phone : Option String
  emailNotifications : Bool
  smsNotifications : Bool
  notifiedAt : Option Nat
  deriving DecidableEq

/-- The persistent state the reconciliation pass touches: the Appointment
and Waitlist collections. -/
structure DB where
  appointments : List Appointment
  waitlist : List WaitlistEntry
  deriving DecidableEq

/-- Outcome of the external Twilio client.messages.create call: a created
message carrying its sid, or a thrown error. -/
inductive SmsOutcome
  | sid (s : String)
  | failure
  deriving DecidableEq

/-- part_003 sendWaitlistNotificationSMS: returns false when the user has no
phone; otherwise returns message.sid ? true : false (empty sid is falsy); a
thrown client error is caught, logged, and the function returns false. -/
def sendWaitlistNotificationSMS (phone : Option String) (outcome : SmsOutcome) : Bool :=
  match phone with
  | none => false
  | some _ =>
    match outcome with
    | SmsOutcome.sid s => if s = "" then false else true
    | SmsOutcome.failure => false

/-- The formattedAppointments list of updateWaitlistForDate: the date's
non-cancelled, non-no-show appointments mapped to
{ timeSlot, serviceDuration }. -/
def formattedAppointments (d : Nat) (db : DB) : List Booking :=
  (db.appointments.filter (fun a =>
      a.date = d ∧ a.status ≠ AppointmentStatus.cancelled
        ∧ a.status ≠ AppointmentStatus.noShow)).map
    (fun a => { timeSlot := a.timeSlot, serviceDuration := a.serviceDuration })

/-- Slot selection inside updateWaitlistForDate: selectedSlot starts as
availableSlots[0] and is overwritten by the first preferred slot contained in
availableSlots (the loop with break); with no preferences, or none matching,
the default availableSlots[0] stands. Guarded by availableSlots being
nonempty at the call site, where headD returns its head. -/
def selectSlot (preferredTimeSlots availableSlots : List String) : String :=
  match preferredTimeSlots.find? (fun p => availableSlots.contains p) with
  | some p => p
  | none => availableSlots.headD ""

/-- Insertion step of the Mongo sort({ createdAt: 1 }) on the waiting
entries. -/
def insertByCreatedAt (e : WaitlistEntry) : List WaitlistEntry → List WaitlistEntry
  | [] => [e]
  | x :: xs =>
    if e.createdAt ≤ x.createdAt then e :: x :: xs else x :: insertByCreatedAt e xs

/-- The Mongo sort({ createdAt: 1 }): ascending, stable insertion sort. -/
def sortByCreatedAt : List WaitlistEntry → List WaitlistEntry
  | [] => []
  | x :: xs => insertByCreatedAt x (sortByCreatedAt xs)

/-- The matching condition of the Waitlist.find query: entries of the date
with status 'waiting'. -/
def isWaitingFor (d : Nat) (e : WaitlistEntry) : Bool :=
  e.date = d ∧ e.status = WaitlistStatus.waiting

/-- The per-entry document update of the loop body: an entry of the date
still waiting whose availability list is nonempty is saved with status
'notified' and notifiedAt = Date.now(); every other entry is untouched. -/
def passEntryUpdate (formatted : List Booking) (d now : Nat) (e : WaitlistEntry) :
    WaitlistEntry :=
  if isWaitingFor d e then
    let availableSlots := getAvailableTimeSlots d formatted e.serviceDuration
    if availableSlots.length > 0 then
      { e with status := WaitlistStatus.notified, notifiedAt := some now }
    else e
  else e

/-- An observable effect of the loop body: a waitlist document save, or the
fire-and-forget SMS dispatch with the boolean the send resolves to. The
email branch of the source is an empty if body (a comment only) and emits
nothing. -/
inductive Event
  | save (entryId : Nat) (status : WaitlistStatus) (notifiedAt : Option Nat)
  | sms (entryId : Nat) (slot : String) (ok : Bool)
  deriving DecidableEq

/-- The effects of one iteration of the entry loop, in source order: when
the availability list is nonempty, the entry save (status 'notified',
notifiedAt stamped) happens first, then — only under the user's
smsNotifications preference — the SMS dispatch carrying the selected slot,
with outcome sendWaitlistNotificationSMS applied to the user's phone and the
external env result for this entry. -/
def entryEvents (formatted : List Booking) (d now : Nat) (env : Nat → SmsOutcome)
    (e : WaitlistEntry) : List Event :=
  let availableSlots := getAvailableTimeSlots d formatted e.serviceDuration
  if availableSlots.length > 0 then
    let selectedSlot := selectSlot e.preferredTimeSlots availableSlots
    Event.save e.id WaitlistStatus.notified (some now) ::
      (if e.smsNotifications then
        [Event.sms e.id selectedSlot (sendWaitlistNotificationSMS e.phone (env e.id))]
      else [])
  else []

/-- part_002 updateWaitlistForDate, for one date d at time now, with env
giving the outcome of the external Twilio call per entry id. Loads the
date's waiting entries sorted by creation time; exits early when there are
none; otherwise formats the date's active appointments once and processes
each waiting entry: the resulting collection state applies the per-entry
document update (the loop's iterations are independent — the appointment
snapshot is never modified during the pass), and the emitted effect trace
concatenates each sorted entry's events in order. -/
def updateWaitlistForDate (d now : Nat) (env : Nat → SmsOutcome) (db : DB) :
    DB × List Event :=
  let waitlistEntries := sortByCreatedAt (db.waitlist.filter (isWaitingFor d))
  if waitlistEntries.length = 0 then (db, [])
  else
    let formatted := formattedAppointments d db
    ({ db with waitlist := db.waitlist.map (passEntryUpdate formatted d now) },
      waitlistEntries.flatMap (entryEvents formatted d now env))

/-- First-created waiting entry of the two-entry reconciliation scenario. -/
def entryOne : WaitlistEntry :=
  { id := 1, date := 5, createdAt := 10, status := WaitlistStatus.waiting,
    preferredTimeSlots := [], serviceDuration := 30, phone := some "+15550001",
    emailNotifications := false, smsNotifications := true, notifiedAt := none }

/-- Second-created waiting entry of the two-entry reconciliation scenario. -/
def entryTwo : WaitlistEntry :=
  { id := 2, date := 5, createdAt := 20, status := WaitlistStatus.waiting,
    preferredTimeSlots := [], serviceDuration := 30, phone := some "+15550002",
    emailNotifications := false, smsNotifications := true, notifiedAt := none }

/-- Two waiting entries on date 5, and two confirmed appointments
(09:00 + 240 minutes and 13:30 + 270 minutes) that book the whole day except
the single 30-minute slot "13:00": the claimed FCFS scenario with exactly
one freed slot. -/
def dbTwoEntries : DB :=
  { appointments :=
      [ { date := 5, timeSlot := "09:00", serviceDuration := 240,
          status := AppointmentStatus.confirmed },
        { date := 5, timeSlot := "13:30", serviceDuration := 270,
          status := AppointmentStatus.confirmed } ],
    waitlist := [entryOne, entryTwo] }

/-- An already-notified entry, used to exercise the frame property. -/
def entryNotifiedSeven : WaitlistEntry :=
  { id := 3, date := 7, createdAt := 10, status := WaitlistStatus.notified,
    preferredTimeSlots := ["10:00"], serviceDuration := 30, phone := some "+15550003",
    emailNotifications := true, smsNotifications := true, notifiedAt := some 40 }

/-- A date-7 state with one appointment and one already-notified waitlist
entry: nothing in it is eligible for the pass. -/
def dbFrame : DB :=
  { appointments :=
      [ { date := 7, timeSlot := "11:00", serviceDuration := 60,
          status := AppointmentStatus.confirmed } ],
    waitlist := [entryNotifiedSeven] }

/-- A waiting entry on date 3 with a phone and SMS notifications enabled,
used to exercise the notification-failure path on an otherwise free day. -/
def entryNine : WaitlistEntry :=
  { id := 9, date := 3, createdAt := 1, status := WaitlistStatus.waiting,
    preferredTimeSlots := [], serviceDuration := 30, phone := some "+15550009",
    emailNotifications := false, smsNotifications := true, notifiedAt := none }

/-- A date-3 state with no appointments and the single waiting entry. -/
def dbNine : DB :=
  { appointments := [], waitlist := [entryNine] }


/-- The grid for the configured constants, evaluated once and shared. -/
theorem generateTimeSlots_eq :
    generateTimeSlots =
      ["09:00", "09:30", "10:00", "10:30", "11:00", "11:30", "12:00", "12:30",
       "13:00", "13:30", "14:00", "14:30", "15:00", "15:30", "16:00", "16:30",
       "17:00", "17:30"] := by
  decide

/-- C4: generateTimeSlots is the ascending sequence of zero-padded "HH:MM"
strings covering business hours [9, 18) in 30-minute increments: the explicit
18-element grid, whose length equals (end - start) * 60 / interval, is
strictly increasing in minutes-since-midnight, starts at "09:00" and ends at
"17:30". -/
theorem grid_spec :
    generateTimeSlots =
      ["09:00", "09:30", "10:00", "10:30", "11:00", "11:30", "12:00", "12:30",
       "13:00", "13:30", "14:00", "14:30", "15:00", "15:30", "16:00", "16:30",
       "17:00", "17:30"]
    ∧ generateTimeSlots.length
        = ((BUSINESS_HOURS_end - BUSINESS_HOURS_start) * 60) / TIME_SLOT_INTERVAL
    ∧ generateTimeSlots.length = 18
    ∧ List.Pairwise (fun a b => slotMinutes a < slotMinutes b) generateTimeSlots
    ∧ generateTimeSlots.head? = some "09:00"
    ∧ generateTimeSlots.getLast? = some "17:30" := by
  refine ⟨generateTimeSlots_eq, by decide, by decide, ?_, by decide, by decide⟩
  rw [generateTimeSlots_eq]
  decide

/-- C10: getAvailableTimeSlots never reads its date argument: the result is
determined by the existing bookings and the service duration alone. -/
theorem query_ignores_date (d1 d2 : Nat) (existingAppointments : List Booking)
    (serviceDuration : Nat) :
    getAvailableTimeSlots d1 existingAppointments serviceDuration
      = getAvailableTimeSlots d2 existingAppointments serviceDuration := rfl

/-- C2: the checker treats back-to-back bookings as non-conflicting: a
candidate starting exactly at an existing booking's end, lying within
business hours, is accepted against that booking; concretely "09:30" for 30
minutes against a 09:00 + 30 booking is available, while "09:30" for 30
minutes against a 09:00 + 60 booking (candidate start strictly inside the
booking's interval) is not. -/
theorem checker_back_to_back :
    (∀ (b : Booking) (s : String) (dur : Nat),
        0 < b.serviceDuration → 0 < dur →
        slotMinutes s = slotMinutes b.timeSlot + b.serviceDuration →
        BUSINESS_HOURS_start ≤ (parseSlot s).1 →
        slotMinutes s + dur ≤ BUSINESS_HOURS_end * 60 →
        isTimeSlotAvailable s [b] dur = true)
    ∧ isTimeSlotAvailable "09:30" [⟨"09:00", 30⟩] 30 = true
    ∧ isTimeSlotAvailable "09:30" [⟨"09:00", 60⟩] 30 = false := by
  refine ⟨?_, by decide, by decide⟩
  intro b s dur hb hd hback hstart hend
  simp only [isTimeSlotAvailable, slotMinutes, List.all_cons, List.all_nil,
    Bool.and_true] at *
  rw [if_neg]
  · simp only [Bool.not_eq_true', Bool.or_eq_false_iff, decide_eq_false_iff_not,
      not_and, not_lt, not_le, Bool.and_eq_false_iff]
    omega
  · simp only [Bool.or_eq_true, decide_eq_true_eq, not_or, not_lt]
    omega

/-- Witness for checker_back_to_back at the concrete back-to-back pair from
the spec: booking 09:00 + 30, candidate "09:30" for 30 minutes. -/
theorem checker_back_to_back_witness :
    isTimeSlotAvailable "09:30" [({ timeSlot := "09:00", serviceDuration := 30 } : Booking)] 30
      = true :=
  checker_back_to_back.1 { timeSlot := "09:00", serviceDuration := 30 } "09:30" 30
    (by decide) (by decide) (by decide) (by decide) (by decide)

/-- C3: the checker rejects every candidate outside business hours — start
minute before opening or end minute past closing — regardless of the
existing bookings; in particular "17:45" with duration 30 is rejected for
every booking list. -/
theorem checker_business_hours :
    (∀ (s : String) (existingAppointments : List Booking) (dur : Nat),
        slotMinutes s < BUSINESS_HOURS_start * 60 ∨
          BUSINESS_HOURS_end * 60 < slotMinutes s + dur →
        isTimeSlotAvailable s existingAppointments dur = false)
    ∧ ∀ existingAppointments : List Booking,
        isTimeSlotAvailable "17:45" existingAppointments 30 = false := by
  have main : ∀ (s : String) (existingAppointments : List Booking) (dur : Nat),
      slotMinutes s < BUSINESS_HOURS_start * 60 ∨
        BUSINESS_HOURS_end * 60 < slotMinutes s + dur →
      isTimeSlotAvailable s existingAppointments dur = false := by
    intro s apps dur h
    simp only [slotMinutes] at h
    simp only [isTimeSlotAvailable]
    rw [if_pos]
    simp only [Bool.or_eq_true, decide_eq_true_eq]
    omega
  exact ⟨main, fun apps => main "17:45" apps 30 (by right; decide)⟩

/-- Witness for checker_business_hours at a concrete too-early candidate:
"08:00" starts before the 9:00 opening, so it is rejected. -/
theorem checker_business_hours_witness :
    isTimeSlotAvailable "08:00" [] 60 = false :=
  checker_business_hours.1 "08:00" [] 60 (Or.inl (by decide))

/-- Every grid slot starts at or after opening and no later than "17:30". -/
theorem grid_bounds :
    ∀ s ∈ generateTimeSlots,
      BUSINESS_HOURS_start ≤ (parseSlot s).1 ∧ slotMinutes s ≤ 1050 := by
  rw [generateTimeSlots_eq]
  decide

/-- The grid is strictly increasing in minutes since midnight. -/
theorem grid_pairwise :
    List.Pairwise (fun a b => slotMinutes a < slotMinutes b) generateTimeSlots := by
  rw [generateTimeSlots_eq]
  decide

/-- With no existing bookings the checker accepts any in-hours candidate. -/
theorem isTimeSlotAvailable_nil (s : String) (dur : Nat)
    (h1 : BUSINESS_HOURS_start ≤ (parseSlot s).1)
    (h2 : slotMinutes s + dur ≤ BUSINESS_HOURS_end * 60) :
    isTimeSlotAvailable s [] dur = true := by
  simp only [slotMinutes, BUSINESS_HOURS_start, BUSINESS_HOURS_end] at h1 h2
  simp only [isTimeSlotAvailable, List.all_nil]
  rw [if_neg]
  simp only [Bool.or_eq_true, decide_eq_true_eq, not_or, not_lt,
    BUSINESS_HOURS_start, BUSINESS_HOURS_end]
  omega

/-- C5 counterexample: with an empty booking list and service duration 60 the
query does not return the full grid — the late slots (for example "17:30",
ending 18:30) spill past closing and are excluded — refuting the claim's
universal quantification over service durations. -/
theorem query_empty_bookings_counterexample :
    getAvailableTimeSlots 0 [] 60 ≠ generateTimeSlots := by
  decide

/-- C5 amended: with an empty existing-bookings list the query returns the
full grid for every service duration of at most the 30-minute slot interval
(longer services cut off the tail slots that would spill past closing); for
every input the result is a subsequence of the grid, in ascending grid
order, and the empty list is a valid result — a fully booked day (two
bookings 09:00 + 270 and 13:30 + 270) yields []. -/
theorem query_spec_amended :
    (∀ (date dur : Nat), dur ≤ TIME_SLOT_INTERVAL →
        getAvailableTimeSlots date [] dur = generateTimeSlots)
    ∧ (∀ (date dur : Nat) (existingAppointments : List Booking),
        (getAvailableTimeSlots date existingAppointments dur).Sublist generateTimeSlots)
    ∧ (∀ (date dur : Nat) (existingAppointments : List Booking),
        List.Pairwise (fun a b => slotMinutes a < slotMinutes b)
          (getAvailableTimeSlots date existingAppointments dur))
    ∧ getAvailableTimeSlots 0 [⟨"09:00", 270⟩, ⟨"13:30", 270⟩] 30 = [] := by
  refine ⟨?_, ?_, ?_, by decide⟩
  · intro date dur h
    unfold getAvailableTimeSlots
    apply List.filter_eq_self.mpr
    intro s hs
    rcases grid_bounds s hs with ⟨h1, h2⟩
    apply isTimeSlotAvailable_nil s dur h1
    simp only [TIME_SLOT_INTERVAL] at h
    simp only [BUSINESS_HOURS_end]
    omega
  · intro date dur apps
    exact List.filter_sublist _
  · intro date dur apps
    exact List.Pairwise.sublist (List.filter_sublist _) grid_pairwise

/-- Witness for query_spec_amended: duration 30 over an empty booking list
gives back the full grid, and the duration-60 result is still a subsequence
of the grid. -/
theorem query_spec_amended_witness :
    getAvailableTimeSlots 0 [] 30 = generateTimeSlots
    ∧ (getAvailableTimeSlots 0 [] 60).Sublist generateTimeSlots :=
  ⟨query_spec_amended.1 0 30 (by decide), query_spec_amended.2.1 0 60 []⟩

/-- Inserting by creation time adds one element. -/
theorem length_insertByCreatedAt (e : WaitlistEntry) (l : List WaitlistEntry) :
    (insertByCreatedAt e l).length = l.length + 1 := by
  induction l with
  | nil => rfl
  | cons x xs ih =>
    simp only [insertByCreatedAt]
    split
    · simp
    · simp [ih]

/-- The creation-time sort preserves length. -/
theorem length_sortByCreatedAt (l : List WaitlistEntry) :
    (sortByCreatedAt l).length = l.length := by
  induction l with
  | nil => rfl
  | cons x xs ih => simp [sortByCreatedAt, length_insertByCreatedAt, ih]

/-- Membership after inserting by creation time. -/
theorem mem_insertByCreatedAt (a e : WaitlistEntry) (l : List WaitlistEntry) :
    a ∈ insertByCreatedAt e l ↔ a = e ∨ a ∈ l := by
  induction l with
  | nil => simp [insertByCreatedAt]
  | cons x xs ih =>
    simp only [insertByCreatedAt]
    split
    · simp
    · simp only [List.mem_cons, ih]
      tauto

/-- The creation-time sort preserves membership. -/
theorem mem_sortByCreatedAt (a : WaitlistEntry) (l : List WaitlistEntry) :
    a ∈ sortByCreatedAt l ↔ a ∈ l := by
  induction l with
  | nil => simp [sortByCreatedAt]
  | cons x xs ih => simp [sortByCreatedAt, mem_insertByCreatedAt, ih]

/-- A waiting entry of the date with a nonempty availability list is saved
as notified with notifiedAt stamped. -/
theorem passEntryUpdate_notifies (formatted : List Booking) (d now : Nat)
    (e : WaitlistEntry) (hw : isWaitingFor d e = true)
    (ha : getAvailableTimeSlots d formatted e.serviceDuration ≠ []) :
    passEntryUpdate formatted d now e
      = { e with status := WaitlistStatus.notified, notifiedAt := some now } := by
  simp only [passEntryUpdate, hw, if_true]
  rw [if_pos (List.length_pos.mpr ha)]

/-- An entry that is not a waiting entry of the date is untouched. -/
theorem passEntryUpdate_skip (formatted : List Booking) (d now : Nat)
    (e : WaitlistEntry) (hw : isWaitingFor d e = false) :
    passEntryUpdate formatted d now e = e := by
  simp [passEntryUpdate, hw]

/-- An entry whose availability list is empty is untouched. -/
theorem passEntryUpdate_stays (formatted : List Booking) (d now : Nat)
    (e : WaitlistEntry)
    (ha : getAvailableTimeSlots d formatted e.serviceDuration = []) :
    passEntryUpdate formatted d now e = e := by
  simp [passEntryUpdate, ha]

/-- An entry whose availability list is empty emits no events. -/
theorem entryEvents_empty (formatted : List Booking) (d now : Nat)
    (env : Nat → SmsOutcome) (e : WaitlistEntry)
    (ha : getAvailableTimeSlots d formatted e.serviceDuration = []) :
    entryEvents formatted d now env e = [] := by
  simp [entryEvents, ha]

/-- A map that fixes every element of a list is the identity on it. -/
theorem map_self_of {α : Type} (l : List α) (f : α → α) (h : ∀ x ∈ l, f x = x) :
    l.map f = l := by
  induction l with
  | nil => rfl
  | cons x xs ih =>
    simp only [List.map_cons, h x (List.mem_cons_self x xs)]
    rw [ih (fun y hy => h y (List.mem_cons_of_mem x hy))]

/-- The collection state after a pass always equals the pointwise per-entry
document update of the waitlist, the appointments untouched (in the early
exit the map is the identity because no entry is waiting). -/
theorem update_state (d now : Nat) (env : Nat → SmsOutcome) (db : DB) :
    (updateWaitlistForDate d now env db).1
      = { db with
          waitlist :=
            db.waitlist.map (passEntryUpdate (formattedAppointments d db) d now) } := by
  simp only [updateWaitlistForDate]
  split
  · next h =>
    have hfil : db.waitlist.filter (isWaitingFor d) = [] := by
      have hl := length_sortByCreatedAt (db.waitlist.filter (isWaitingFor d))
      rw [h] at hl
      exact List.length_eq_zero.mp hl.symm
    have hmap : db.waitlist.map
        (passEntryUpdate (formattedAppointments d db) d now) = db.waitlist := by
      apply map_self_of
      intro x hx
      apply passEntryUpdate_skip
      have := List.filter_eq_nil_iff.mp hfil x hx
      exact Bool.eq_false_iff.mpr this
    rw [hmap]
  · rfl

/-- A pass in which every entry is fixed by the document update and every
waiting entry of the date emits no events returns the state unchanged with
an empty trace. -/
theorem update_noop (d now : Nat) (env : Nat → SmsOutcome) (db : DB)
    (h1 : ∀ e ∈ db.waitlist,
        passEntryUpdate (formattedAppointments d db) d now e = e)
    (h2 : ∀ e ∈ db.waitlist, isWaitingFor d e = true →
        entryEvents (formattedAppointments d db) d now env e = []) :
    updateWaitlistForDate d now env db = (db, []) := by
  simp only [updateWaitlistForDate]
  split
  · rfl
  · have hmap : db.waitlist.map
        (passEntryUpdate (formattedAppointments d db) d now) = db.waitlist :=
      map_self_of _ _ h1
    have hev : (sortByCreatedAt (db.waitlist.filter (isWaitingFor d))).flatMap
        (entryEvents (formattedAppointments d db) d now env) = [] := by
      apply List.flatMap_eq_nil_iff.mpr
      intro x hx
      have hx' := (mem_sortByCreatedAt x _).mp hx
      have hmem := List.mem_filter.mp hx'
      exact h2 x hmem.1 hmem.2
    rw [hmap, hev]

/-- C6: when the reconciler notifies an entry, the selected slot is the
first preferred slot that is also available — if the preference list
decomposes as l1 ++ p :: l2 with p available and nothing in l1 available,
the selection is p; when no preference matches, or none were given, the
selection defaults to the first available slot; and the dispatched SMS event
carries exactly this selection. -/
theorem select_slot_spec :
    (∀ (l1 l2 : List String) (p : String) (avail : List String),
        p ∈ avail → (∀ q ∈ l1, q ∉ avail) →
        selectSlot (l1 ++ p :: l2) avail = p)
    ∧ (∀ (preferredTimeSlots avail : List String),
        (∀ q ∈ preferredTimeSlots, q ∉ avail) →
        selectSlot preferredTimeSlots avail = avail.headD "")
    ∧ (∀ avail : List String, selectSlot [] avail = avail.headD "")
    ∧ (∀ (formatted : List Booking) (d now : Nat) (env : Nat → SmsOutcome)
          (e : WaitlistEntry),
        getAvailableTimeSlots d formatted e.serviceDuration ≠ [] →
        e.smsNotifications = true →
        Event.sms e.id
            (selectSlot e.preferredTimeSlots
              (getAvailableTimeSlots d formatted e.serviceDuration))
            (sendWaitlistNotificationSMS e.phone (env e.id))
          ∈ entryEvents formatted d now env e) := by
  refine ⟨?_, ?_, ?_, ?_⟩
  · intro l1 l2 p avail hp hl1
    have hfind : (l1 ++ p :: l2).find? (fun q => avail.contains q) = some p := by
      induction l1 with
      | nil =>
        rw [List.nil_append, List.find?_cons_of_pos]
        exact List.elem_iff.mpr hp
      | cons q l1' ih =>
        rw [List.cons_append, List.find?_cons_of_neg]
        · exact ih (fun r hr => hl1 r (List.mem_cons_of_mem q hr))
        · simp only [Bool.not_eq_true]
          apply Bool.eq_false_iff.mpr
          intro hc
          exact hl1 q (List.mem_cons_self q l1') (List.elem_iff.mp hc)
    simp only [selectSlot]
    rw [hfind]
  · intro prefs avail h
    have hfind : prefs.find? (fun q => avail.contains q) = none := by
      apply List.find?_eq_none.mpr
      intro q hq
      simp only [Bool.not_eq_true]
      apply Bool.eq_false_iff.mpr
      intro hc
      exact h q hq (List.elem_iff.mp hc)
    simp only [selectSlot]
    rw [hfind]
  · intro avail
    rfl
  · intro formatted d now env e hne hsms
    simp only [entryEvents, hsms, if_true]
    rw [if_pos (List.length_pos.mpr hne)]
    simp

/-- Witness for select_slot_spec at the spec's example: preferences
["10:00", "10:30"] against availability where "10:00" is taken but "10:30"
is open select "10:30", not the earliest open slot "09:00". -/
theorem select_slot_spec_witness :
    selectSlot (["10:00"] ++ "10:30" :: []) ["09:00", "10:30", "11:00"] = "10:30" :=
  select_slot_spec.1 ["10:00"] [] "10:30" ["09:00", "10:30", "11:00"]
    (by decide) (by decide)

/-- C1 counterexample: in the two-entry, one-freed-slot scenario (exactly
"13:00" is open on date 5) the pass notifies BOTH entries — the availability
pool is recomputed from the unchanged appointment snapshot for every entry,
and notifying an entry books nothing — so the later-created entry does not
end the pass with status 'waiting' as claimed. -/
theorem reconcile_two_entries_counterexample :
    getAvailableTimeSlots 5 (formattedAppointments 5 dbTwoEntries) 30 = ["13:00"]
    ∧ ((updateWaitlistForDate 5 100 (fun _ => SmsOutcome.sid "SM1")
          dbTwoEntries).1.waitlist.map WaitlistEntry.status)
        = [WaitlistStatus.notified, WaitlistStatus.notified]
    ∧ WaitlistStatus.notified ≠ WaitlistStatus.waiting := by
  refine ⟨by decide, by decide, by decide⟩

/-- C1 amended: in a pass over a date with exactly two waiting entries
(distinct creation times) whose availability lists are nonempty — in
particular with one freed slot fitting both services — the earlier-created
entry ends the pass notified and the later-created entry ALSO ends the pass
notified: the reconciler evaluates every entry against the pre-pass
appointment snapshot and never removes a claimed slot from the pool. -/
theorem reconcile_two_entries_both_notified (d now : Nat)
    (env : Nat → SmsOutcome) (db : DB) (e1 e2 : WaitlistEntry)
    (hfilter : db.waitlist.filter (isWaitingFor d) = [e1, e2])
    (horder : e1.createdAt < e2.createdAt)
    (h1 : getAvailableTimeSlots d (formattedAppointments d db)
        e1.serviceDuration ≠ [])
    (h2 : getAvailableTimeSlots d (formattedAppointments d db)
        e2.serviceDuration ≠ []) :
    (updateWaitlistForDate d now env db).1.waitlist
        = db.waitlist.map (passEntryUpdate (formattedAppointments d db) d now)
    ∧ passEntryUpdate (formattedAppointments d db) d now e1
        = { e1 with status := WaitlistStatus.notified, notifiedAt := some now }
    ∧ passEntryUpdate (formattedAppointments d db) d now e2
        = { e2 with status := WaitlistStatus.notified, notifiedAt := some now } := by
  have m1 : e1 ∈ db.waitlist.filter (isWaitingFor d) := by
    rw [hfilter]; exact List.mem_cons_self _ _
  have m2 : e2 ∈ db.waitlist.filter (isWaitingFor d) := by
    rw [hfilter]; exact List.mem_cons_of_mem _ (List.mem_cons_self _ _)
  have w1 : isWaitingFor d e1 = true := (List.mem_filter.mp m1).2
  have w2 : isWaitingFor d e2 = true := (List.mem_filter.mp m2).2
  refine ⟨?_, passEntryUpdate_notifies _ _ _ _ w1 h1,
    passEntryUpdate_notifies _ _ _ _ w2 h2⟩
  rw [update_state]

/-- Witness for reconcile_two_entries_both_notified at the concrete
scenario: both entries of dbTwoEntries are saved as notified at time 100. -/
theorem reconcile_two_entries_both_notified_witness :
    (updateWaitlistForDate 5 100 (fun _ => SmsOutcome.sid "SM2") dbTwoEntries).1.waitlist
        = dbTwoEntries.waitlist.map
            (passEntryUpdate (formattedAppointments 5 dbTwoEntries) 5 100)
    ∧ passEntryUpdate (formattedAppointments 5 dbTwoEntries) 5 100 entryOne
        = { entryOne with status := WaitlistStatus.notified, notifiedAt := some 100 }
    ∧ passEntryUpdate (formattedAppointments 5 dbTwoEntries) 5 100 entryTwo
        = { entryTwo with status := WaitlistStatus.notified, notifiedAt := some 100 } :=
  reconcile_two_entries_both_notified 5 100 (fun _ => SmsOutcome.sid "SM2")
    dbTwoEntries entryOne entryTwo (by decide) (by decide) (by decide) (by decide)

/-- C8: a pass never creates or modifies an Appointment — the appointments
collection is returned unchanged — and the waitlist is changed only by the
pointwise per-entry update, which fixes every entry that is not a waiting
entry of the date and moves any other entry at most to status 'notified'
with notifiedAt stamped to now. -/
theorem reconcile_frame (d now : Nat) (env : Nat → SmsOutcome) (db : DB) :
    (updateWaitlistForDate d now env db).1.appointments = db.appointments
    ∧ (updateWaitlistForDate d now env db).1.waitlist
        = db.waitlist.map (passEntryUpdate (formattedAppointments d db) d now)
    ∧ (∀ e : WaitlistEntry, isWaitingFor d e = false →
        passEntryUpdate (formattedAppointments d db) d now e = e)
    ∧ (∀ e : WaitlistEntry,
        passEntryUpdate (formattedAppointments d db) d now e = e
        ∨ passEntryUpdate (formattedAppointments d db) d now e
            = { e with status := WaitlistStatus.notified, notifiedAt := some now }) := by
  refine ⟨by rw [update_state], by rw [update_state], ?_, ?_⟩
  · intro e hw
    exact passEntryUpdate_skip _ _ _ _ hw
  · intro e
    by_cases hw : isWaitingFor d e = true
    · by_cases ha : getAvailableTimeSlots d (formattedAppointments d db)
          e.serviceDuration = []
      · exact Or.inl (passEntryUpdate_stays _ _ _ _ ha)
      · exact Or.inr (passEntryUpdate_notifies _ _ _ _ hw ha)
    · exact Or.inl (passEntryUpdate_skip _ _ _ _ (Bool.eq_false_iff.mpr hw))

/-- Witness for reconcile_frame on the date-7 state: the appointment list is
unchanged and the already-notified entry is fixed by the per-entry update. -/
theorem reconcile_frame_witness :
    (updateWaitlistForDate 7 50 (fun _ => SmsOutcome.failure) dbFrame).1.appointments
        = dbFrame.appointments
    ∧ passEntryUpdate (formattedAppointments 7 dbFrame) 7 50 entryNotifiedSeven
        = entryNotifiedSeven :=
  ⟨(reconcile_frame 7 50 (fun _ => SmsOutcome.failure) dbFrame).1,
    (reconcile_frame 7 50 (fun _ => SmsOutcome.failure) dbFrame).2.2.1
      entryNotifiedSeven (by decide)⟩

/-- C9: notification delivery failure never rolls back the transition. In
the event trace of an entry being notified the save of status 'notified'
with notifiedAt stamped precedes the SMS dispatch; when the send fails the
trace carries ok = false yet the per-entry document update still leaves the
entry notified; and sendWaitlistNotificationSMS maps a thrown client error
(caught and logged) to false for every phone value. -/
theorem notification_failure_no_rollback (d now : Nat)
    (env : Nat → SmsOutcome) (db : DB) (e : WaitlistEntry)
    (hw : isWaitingFor d e = true)
    (ha : getAvailableTimeSlots d (formattedAppointments d db)
        e.serviceDuration ≠ [])
    (hsms : e.smsNotifications = true)
    (hfail : sendWaitlistNotificationSMS e.phone (env e.id) = false) :
    entryEvents (formattedAppointments d db) d now env e
        = [Event.save e.id WaitlistStatus.notified (some now),
           Event.sms e.id
             (selectSlot e.preferredTimeSlots
               (getAvailableTimeSlots d (formattedAppointments d db)
                 e.serviceDuration))
             false]
    ∧ passEntryUpdate (formattedAppointments d db) d now e
        = { e with status := WaitlistStatus.notified, notifiedAt := some now }
    ∧ ∀ phone : Option String,
        sendWaitlistNotificationSMS phone SmsOutcome.failure = false := by
  refine ⟨?_, passEntryUpdate_notifies _ _ _ _ hw ha, ?_⟩
  · simp only [entryEvents, hsms, if_true]
    rw [if_pos (List.length_pos.mpr ha), hfail]
  · intro phone
    cases phone <;> rfl

/-- Witness for notification_failure_no_rollback on the date-3 state: the
Twilio call throws for entry 9, the send resolves to false, and the entry is
still saved as notified at time 77 before the dispatch. -/
theorem notification_failure_no_rollback_witness :
    entryEvents (formattedAppointments 3 dbNine) 3 77 (fun _ => SmsOutcome.failure)
        entryNine
        = [Event.save entryNine.id WaitlistStatus.notified (some 77),
           Event.sms entryNine.id
             (selectSlot entryNine.preferredTimeSlots
               (getAvailableTimeSlots 3 (formattedAppointments 3 dbNine)
                 entryNine.serviceDuration))
             false]
    ∧ passEntryUpdate (formattedAppointments 3 dbNine) 3 77 entryNine
        = { entryNine with status := WaitlistStatus.notified, notifiedAt := some 77 }
    ∧ ∀ phone : Option String,
        sendWaitlistNotificationSMS phone SmsOutcome.failure = false :=
  notification_failure_no_rollback 3 77 (fun _ => SmsOutcome.failure) dbNine entryNine
    (by decide) (by decide) (by decide) (by decide)

/-- C7: reconciliation is idempotent per date — a second pass over the state
produced by a first pass, with no intervening writes, returns that state
unchanged and emits no events (entries notified by the first pass are no
longer waiting, and entries left waiting still have an empty availability
list against the unchanged appointments) — and a pass over a date with zero
waiting entries performs no writes at all. -/
theorem reconcile_idempotent (d now1 now2 : Nat)
    (env1 env2 : Nat → SmsOutcome) (db : DB) :
    updateWaitlistForDate d now2 env2 (updateWaitlistForDate d now1 env1 db).1
        = ((updateWaitlistForDate d now1 env1 db).1, [])
    ∧ (db.waitlist.filter (isWaitingFor d) = [] →
        updateWaitlistForDate d now1 env1 db = (db, [])) := by
  constructor
  · apply update_noop
    · intro x hx
      rw [update_state] at hx ⊢
      obtain ⟨e, he, rfl⟩ := List.mem_map.mp hx
      show passEntryUpdate (formattedAppointments d db) d now2
          (passEntryUpdate (formattedAppointments d db) d now1 e)
        = passEntryUpdate (formattedAppointments d db) d now1 e
      by_cases hw : isWaitingFor d e = true
      · by_cases ha : getAvailableTimeSlots d (formattedAppointments d db)
            e.serviceDuration = []
        · rw [passEntryUpdate_stays _ _ _ _ ha, passEntryUpdate_stays _ _ _ _ ha]
        · rw [passEntryUpdate_notifies _ _ _ _ hw ha]
          apply passEntryUpdate_skip
          simp [isWaitingFor]
      · have hw' := Bool.eq_false_iff.mpr hw
        rw [passEntryUpdate_skip _ _ _ _ hw', passEntryUpdate_skip _ _ _ _ hw']
    · intro x hx hwx
      rw [update_state] at hx ⊢
      obtain ⟨e, he, rfl⟩ := List.mem_map.mp hx
      show entryEvents (formattedAppointments d db) d now2 env2
          (passEntryUpdate (formattedAppointments d db) d now1 e) = []
      by_cases hw : isWaitingFor d e = true
      · by_cases ha : getAvailableTimeSlots d (formattedAppointments d db)
            e.serviceDuration = []
        · rw [passEntryUpdate_stays _ _ _ _ ha] at hwx ⊢
          exact entryEvents_empty _ _ _ _ _ ha
        · rw [passEntryUpdate_notifies _ _ _ _ hw ha] at hwx
          simp [isWaitingFor] at hwx
      · have hw' := Bool.eq_false_iff.mpr hw
        rw [passEntryUpdate_skip _ _ _ _ hw'] at hwx
        rw [hw'] at hwx
        cases hwx
  · intro hfil
    apply update_noop
    · intro e he
      apply passEntryUpdate_skip
      exact Bool.eq_false_iff.mpr (List.filter_eq_nil_iff.mp hfil e he)
    · intro e he hw
      exact absurd hw (List.filter_eq_nil_iff.mp hfil e he)

/-- Witness for reconcile_idempotent on the date-7 state, which has no
waiting entries: both the repeated pass and the single pass are no-ops. -/
theorem reconcile_idempotent_witness :
    updateWaitlistForDate 7 60 (fun _ => SmsOutcome.failure)
        (updateWaitlistForDate 7 50 (fun _ => SmsOutcome.failure) dbFrame).1
        = ((updateWaitlistForDate 7 50 (fun _ => SmsOutcome.failure) dbFrame).1, [])
    ∧ updateWaitlistForDate 7 50 (fun _ => SmsOutcome.failure) dbFrame
        = (dbFrame, []) :=
  ⟨(reconcile_idempotent 7 50 60 (fun _ => SmsOutcome.failure)
      (fun _ => SmsOutcome.failure) dbFrame).1,
    (reconcile_idempotent 7 50 60 (fun _ => SmsOutcome.failure)
      (fun _ => SmsOutcome.failure) dbFrame).2 (by decide)⟩
